import Mathlib

/-!
Shallow embedding of the indicator/signal-evaluation engine of
`stock_selector.py` (functions `sma`, `calculate_kdj`, `calculate_macd`,
`analyze_stock` and the market-cap adjustment of `run_stock_selection`).

Numeric columns are modelled as lists of rational numbers; a possibly
undefined (pandas `NaN`) entry is an `Option ℚ`.  Pandas semantics is kept:
any comparison with an undefined operand is `false`, arithmetic propagates
undefinedness, a rolling window of width `w` is defined only from index
`w - 1` on, and `x != 0` is `true` when `x` is undefined.
-/

namespace StockSel

/-- Pandas-style comparison of possibly-undefined values: any comparison with
an undefined (`NaN`) operand yields `false`. -/
def oCmp (f : ℚ → ℚ → Bool) : Option ℚ → Option ℚ → Bool
  | some x, some y => f x y
  | _, _ => false

/-- Pandas `<` on possibly-undefined values. -/
def oLt : Option ℚ → Option ℚ → Bool := oCmp fun x y => decide (x < y)

/-- Pandas `<=` on possibly-undefined values. -/
def oLe : Option ℚ → Option ℚ → Bool := oCmp fun x y => decide (x ≤ y)

/-- Pandas `>` on possibly-undefined values. -/
def oGt (a b : Option ℚ) : Bool := oLt b a

/-- Pandas `>=` on possibly-undefined values. -/
def oGe (a b : Option ℚ) : Bool := oLe b a

/-- Pandas `==` on possibly-undefined values (`NaN == x` is `false`). -/
def oEq : Option ℚ → Option ℚ → Bool := oCmp fun x y => decide (x = y)

/-- Pandas `!=`-against-a-constant test (`NaN != c` is `true`). -/
def oNe (a : Option ℚ) (c : ℚ) : Bool :=
  match a with
  | none => true
  | some x => decide (x ≠ c)

/-- Pandas-style binary arithmetic: undefined (`NaN`) propagates. -/
def o2 (f : ℚ → ℚ → ℚ) : Option ℚ → Option ℚ → Option ℚ
  | some x, some y => some (f x y)
  | _, _ => none

/-- Scalar multiple of a possibly-undefined value. -/
def oSMul (c : ℚ) : Option ℚ → Option ℚ := Option.map (c * ·)

/-- Three-argument `zipWith`. -/
def zipWith3 (f : α → β → γ → δ) : List α → List β → List γ → List δ
  | a :: as, b :: bs, c :: cs => f a b c :: zipWith3 f as bs cs
  | _, _, _ => []

/-- Trailing window of width `w` ending at index `i` (rows `i+1-w` … `i`). -/
def windowEnd (w i : ℕ) (xs : List α) : List α := (xs.take (i + 1)).drop (i + 1 - w)

/-- Minimum of a list (windows are never empty where this is used). -/
def listMin : List ℚ → ℚ
  | [] => 0
  | x :: xs => xs.foldl min x

/-- Maximum of a list (windows are never empty where this is used). -/
def listMax : List ℚ → ℚ
  | [] => 0
  | x :: xs => xs.foldl max x

/-- Sum of a list of rationals. -/
def listSum (xs : List ℚ) : ℚ := xs.foldl (· + ·) 0

/-- Arithmetic mean of a list of rationals. -/
def listMean (xs : List ℚ) : ℚ := listSum xs / xs.length

/-- Pandas `Series.rolling(window=w).f()` on a fully-defined column: entry `i`
is `f` of the trailing `w`-row window, undefined while fewer than `w` rows
are available. -/
def rolling (w : ℕ) (f : List ℚ → ℚ) (xs : List ℚ) : List (Option ℚ) :=
  (List.range xs.length).map fun i =>
    if i + 1 < w then none else some (f (windowEnd w i xs))

/-- Sequences a window of possibly-undefined entries. -/
def allSome : List (Option ℚ) → Option (List ℚ)
  | [] => some []
  | none :: _ => none
  | some x :: xs => (allSome xs).map (x :: ·)

/-- Rolling aggregate over a column that may contain undefined entries
(pandas default `min_periods = window`: any `NaN` inside a full window makes
the result `NaN`). -/
def rollingO (w : ℕ) (f : List ℚ → ℚ) (xs : List (Option ℚ)) : List (Option ℚ) :=
  (List.range xs.length).map fun i =>
    if i + 1 < w then none else (allSome (windowEnd w i xs)).map f

/-- Pandas `shift(1)`: entry `0` becomes undefined, entry `i+1` holds row `i`. -/
def shift1 (xs : List α) : List (Option α) := (none :: xs.map some).take xs.length

/-- Multiplication of a volume by a boolean label column entry
(pandas `float * bool`). -/
def mulBool (v : ℚ) (b : Bool) : ℚ := v * (if b then 1 else 0)

/-- Booleans viewed as `0`/`1` rationals (pandas bool-to-float coercion under
rolling sums). -/
def boolToQ (b : Bool) : ℚ := if b then 1 else 0

/-- One step of the recursive smoothed moving average (source `sma`, lines
34-38): if the previous output value is undefined the input is re-seeded,
otherwise the additive-decay recursion applies (undefined input propagates
through the arithmetic). -/
def smaStep (n m : ℚ) (prev x : Option ℚ) : Option ℚ :=
  match prev with
  | none => x
  | some p => x.map fun xv => (m * xv + (n - m) * p) / n

/-- Tail of the `sma` loop (source `sma`, lines 34-38), carrying the previous
output value. -/
def smaGo (n m : ℚ) (prev : Option ℚ) : List (Option ℚ) → List (Option ℚ)
  | [] => []
  | x :: xs => smaStep n m prev x :: smaGo n m (smaStep n m prev x) xs

/-- Source function `sma`: `result[0] = series[0]`, then the recursion of
`smaStep` left to right. -/
def sma (series : List (Option ℚ)) (n m : ℚ) : List (Option ℚ) :=
  match series with
  | [] => []
  | x :: xs => x :: smaGo n m x xs

/-- Tail of the pandas `ewm(span, adjust=False).mean()` recursion, carrying
the previous output value (`a` is the smoothing factor `2/(span+1)`). -/
def ewmGo (a : ℚ) (prev : ℚ) : List ℚ → List ℚ
  | [] => []
  | x :: xs => (a * x + (1 - a) * prev) :: ewmGo a (a * x + (1 - a) * prev) xs

/-- Pandas `ewm(span=s, adjust=False).mean()`: seeded from the first value,
then the standard recursive exponential average. -/
def ewm (span : ℚ) (xs : List ℚ) : List ℚ :=
  match xs with
  | [] => []
  | x :: rest => x :: ewmGo (2 / (span + 1)) x rest

/-- One daily OHLCV bar.  `opn` is the source's `open` column (`open` is a
Lean keyword).  `amount` is optional: the source uses the `amount` column
when present and falls back to `volume * close` otherwise. -/
structure Bar where
  date : ℤ
  opn : ℚ
  high : ℚ
  low : ℚ
  close : ℚ
  volume : ℚ
  amount : Option ℚ
deriving DecidableEq

/-- Source column `C` (= `close`). -/
def closes (bars : List Bar) : List ℚ := bars.map Bar.close

/-- Source column `O` (= `open`). -/
def opns (bars : List Bar) : List ℚ := bars.map Bar.opn

/-- Source column `H` (= `high`). -/
def highs (bars : List Bar) : List ℚ := bars.map Bar.high

/-- Source column `L` (= `low`). -/
def lows (bars : List Bar) : List ℚ := bars.map Bar.low

/-- Source column `VOL` (= `volume`). -/
def vols (bars : List Bar) : List ℚ := bars.map Bar.volume

/-- Source column `AMOUNT` (the `amount` column when present, else
`volume * close`; the per-frame column presence of the source is modelled
per bar). -/
def amounts (bars : List Bar) : List ℚ :=
  bars.map fun b => b.amount.getD (b.volume * b.close)

/-- Source column `REF_C_1` (= `C.shift(1)`). -/
def ref_c_1 (bars : List Bar) : List (Option ℚ) := shift1 (closes bars)

/-- One entry of the RSV column of `calculate_kdj`: the source initialises
the column to `50`, then overwrites it where the pandas mask `den != 0`
holds (true also where `den` is `NaN`) with `(close - low_9) / den * 100`. -/
def rsvStep (c : ℚ) (l9 h9 : Option ℚ) : Option ℚ :=
  if oNe (o2 (· - ·) h9 l9) 0 then
    o2 (· * ·) (o2 (· / ·) (o2 (· - ·) (some c) l9) (o2 (· - ·) h9 l9)) (some 100)
  else some 50

/-- RSV column of `calculate_kdj` from the raw high/low/close columns. -/
def rsvOf (hs ls cs : List ℚ) : List (Option ℚ) :=
  zipWith3 rsvStep cs (rolling 9 listMin ls) (rolling 9 listMax hs)

/-- Source column `rsv` of `calculate_kdj` applied to a series of bars. -/
def rsv (bars : List Bar) : List (Option ℚ) :=
  rsvOf (highs bars) (lows bars) (closes bars)

/-- Source column `K` (= `sma(rsv, 3, 1)`). -/
def kCol (bars : List Bar) : List (Option ℚ) := sma (rsv bars) 3 1

/-- Source column `D` (= `sma(k, 3, 1)`). -/
def dCol (bars : List Bar) : List (Option ℚ) := sma (kCol bars) 3 1

/-- Source column `J` (= `3 * k - 2 * d`). -/
def jCol (bars : List Bar) : List (Option ℚ) :=
  List.zipWith (fun k d => o2 (· - ·) (oSMul 3 k) (oSMul 2 d)) (kCol bars) (dCol bars)

/-- Source predicate column `j_ok` (= `J <= 13`). -/
def j_ok (bars : List Bar) : List Bool :=
  (jCol bars).map fun x => oLe x (some 13)

/-- Source column `real_yang` (= `(C > O) & ~(C < REF_C_1)`). -/
def real_yang (bars : List Bar) : List Bool :=
  zipWith3 (fun c o p => (decide (c > o)) && !(oLt (some c) p))
    (closes bars) (opns bars) (ref_c_1 bars)

/-- Source column `real_yin` (= `(C < O) & ~(C > REF_C_1)`). -/
def real_yin (bars : List Bar) : List Bool :=
  zipWith3 (fun c o p => (decide (c < o)) && !(oGt (some c) p))
    (closes bars) (opns bars) (ref_c_1 bars)

/-- Source column `fake_yang` (= `~(C < REF_C_1)`). -/
def fake_yang (bars : List Bar) : List Bool :=
  List.zipWith (fun c p => !(oLt (some c) p)) (closes bars) (ref_c_1 bars)

/-- Source column `fake_yin` (= `~(C > REF_C_1)`). -/
def fake_yin (bars : List Bar) : List Bool :=
  List.zipWith (fun c p => !(oGt (some c) p)) (closes bars) (ref_c_1 bars)

/-- Rolling sum of `VOL * label` over a window `w` (source `VOL_*` columns). -/
def volLabelSum (w : ℕ) (bars : List Bar) (label : List Bool) : List (Option ℚ) :=
  rolling w listSum (List.zipWith mulBool (vols bars) label)

/-- Source column `VOL_YANG21`. -/
def vol_yang21 (bars : List Bar) : List (Option ℚ) := volLabelSum 21 bars (real_yang bars)

/-- Source column `VOL_YIN21`. -/
def vol_yin21 (bars : List Bar) : List (Option ℚ) := volLabelSum 21 bars (real_yin bars)

/-- Source column `VOL_YANG14`. -/
def vol_yang14 (bars : List Bar) : List (Option ℚ) := volLabelSum 14 bars (real_yang bars)

/-- Source column `VOL_YIN14`. -/
def vol_yin14 (bars : List Bar) : List (Option ℚ) := volLabelSum 14 bars (real_yin bars)

/-- Source column `VOL_FAKEYANG21`. -/
def vol_fakeyang21 (bars : List Bar) : List (Option ℚ) := volLabelSum 21 bars (fake_yang bars)

/-- Source column `VOL_FAKEYIN21`. -/
def vol_fakeyin21 (bars : List Bar) : List (Option ℚ) := volLabelSum 21 bars (fake_yin bars)

/-- Source column `VOL_FAKEYANG14`. -/
def vol_fakeyang14 (bars : List Bar) : List (Option ℚ) := volLabelSum 14 bars (fake_yang bars)

/-- Source column `VOL_FAKEYIN14`. -/
def vol_fakeyin14 (bars : List Bar) : List (Option ℚ) := volLabelSum 14 bars (fake_yin bars)

/-- Source column `VOL_FAKEYANG10`. -/
def vol_fakeyang10 (bars : List Bar) : List (Option ℚ) := volLabelSum 10 bars (fake_yang bars)

/-- Source column `VOL_FAKEYIN10`. -/
def vol_fakeyin10 (bars : List Bar) : List (Option ℚ) := volLabelSum 10 bars (fake_yin bars)

/-- Source predicate column `yangyin_ok` (five volume-balance disjuncts). -/
def yangyin_ok (bars : List Bar) : List Bool :=
  List.zipWith (· || ·)
    (List.zipWith (· || ·)
      (List.zipWith (· || ·)
        (List.zipWith (· || ·)
          (List.zipWith (fun a b => oGt a (oSMul (3/2) b)) (vol_yang21 bars) (vol_yin21 bars))
          (List.zipWith (fun a b => oGt a (oSMul (3/2) b)) (vol_yang14 bars) (vol_yin14 bars)))
        (List.zipWith (fun a b => oGt a (oSMul (3/2) b)) (vol_fakeyang21 bars) (vol_fakeyin21 bars)))
      (List.zipWith (fun a b => oGt a (oSMul (3/2) b)) (vol_fakeyang14 bars) (vol_fakeyin14 bars)))
    (List.zipWith (fun a b => oGt a (oSMul (9/5) b)) (vol_fakeyang10 bars) (vol_fakeyin10 bars))

/-- Source column `A28` (= 28-bar rolling mean of `AMOUNT`, divided by 1e8). -/
def a28 (bars : List Bar) : List (Option ℚ) :=
  (rolling 28 listMean (amounts bars)).map (Option.map (· / 100000000))

/-- Source predicate column `lq` (= `A28 >= 0.005`). -/
def lq (bars : List Bar) : List Bool :=
  (a28 bars).map fun x => oGe x (some (5/1000))

/-- Source column `mvok` inside `analyze_stock` (constant `True`; the real
market-cap test happens later in `run_stock_selection`). -/
def mvok (bars : List Bar) : List Bool := List.replicate bars.length true

/-- Source column `O85` (= `LLV(O,28) + 0.925*(HHV(O,28) - LLV(O,28))`). -/
def o85 (bars : List Bar) : List (Option ℚ) :=
  List.zipWith (o2 fun lv hv => lv + (925/1000) * (hv - lv))
    (rolling 28 listMin (opns bars)) (rolling 28 listMax (opns bars))

/-- Source predicate column `top15o` (= `O >= O85`). -/
def top15o (bars : List Bar) : List Bool :=
  List.zipWith (fun o v => oGe (some o) v) (opns bars) (o85 bars)

/-- Source predicate column `fd15`
(= `(C < REF_C_1) & (C <= O) & (VOL >= 1.15 * VOL.shift(1))`). -/
def fd15 (bars : List Bar) : List Bool :=
  List.zipWith (· && ·)
    (List.zipWith (· && ·)
      (List.zipWith (fun c p => oLt (some c) p) (closes bars) (ref_c_1 bars))
      (List.zipWith (fun c o => decide (c ≤ o)) (closes bars) (opns bars)))
    (List.zipWith (fun v pv => oGe (some v) (oSMul (115/100) pv)) (vols bars) (shift1 (vols bars)))

/-- Source predicate column `good28` (28-bar count of `top15o & fd15` is 0;
computed by the source but not used in the final conjunction). -/
def good28 (bars : List Bar) : List Bool :=
  (rolling 28 listSum ((List.zipWith (· && ·) (top15o bars) (fd15 bars)).map boolToQ)).map
    fun s => oEq s (some 0)

/-- Source column `maxvol28` (= `HHV(VOL, 28)`). -/
def maxvol28 (bars : List Bar) : List (Option ℚ) := rolling 28 listMax (vols bars)

/-- Source predicate column `max28_ok`
(28-bar count of `VOL == maxvol28 & real_yin` is 0). -/
def max28_ok (bars : List Bar) : List Bool :=
  (rolling 28 listSum
    ((zipWith3 (fun v mx ry => oEq (some v) mx && ry) (vols bars) (maxvol28 bars) (real_yin bars)).map
      boolToQ)).map fun s => oEq s (some 0)

/-- Source column `AVG40` (= `MA(VOL, 40)`). -/
def avg40 (bars : List Bar) : List (Option ℚ) := rolling 40 listMean (vols bars)

/-- Source predicate column `plry`
(= `(VOL > 1.8 * VOL.shift(1)) & (C > O) & (VOL > AVG40)`). -/
def plry (bars : List Bar) : List Bool :=
  List.zipWith (· && ·)
    (List.zipWith (· && ·)
      (List.zipWith (fun v pv => oGt (some v) (oSMul (9/5) pv)) (vols bars) (shift1 (vols bars)))
      (List.zipWith (fun c o => decide (c > o)) (closes bars) (opns bars)))
    (List.zipWith (fun v a => oGt (some v) a) (vols bars) (avg40 bars))

/-- Source predicate column `plry_cnt` (28-bar count of `plry` at least 1). -/
def plry_cnt (bars : List Bar) : List Bool :=
  (rolling 28 listSum ((plry bars).map boolToQ)).map fun s => oGe s (some 1)

/-- Source column `V40P` (= `VOL.shift(1).rolling(40).mean()`). -/
def v40p (bars : List Bar) : List (Option ℚ) := rollingO 40 listMean (shift1 (vols bars))

/-- Source predicate column `bd` (= `(C > REF_C_1) & (C >= O)`). -/
def bd (bars : List Bar) : List Bool :=
  List.zipWith (· && ·)
    (List.zipWith (fun c p => oGt (some c) p) (closes bars) (ref_c_1 bars))
    (List.zipWith (fun c o => decide (c ≥ o)) (closes bars) (opns bars))

/-- Source predicate column `bigv` (= `VOL > 1.75 * V40P`). -/
def bigv (bars : List Bar) : List Bool :=
  List.zipWith (fun v w => oGt (some v) (oSMul (175/100) w)) (vols bars) (v40p bars)

/-- Source column `R55` (= `LLV(C,40) + 0.55*(HHV(C,40) - LLV(C,40))`). -/
def r55 (bars : List Bar) : List (Option ℚ) :=
  List.zipWith (o2 fun lv hv => lv + (55/100) * (hv - lv))
    (rolling 40 listMin (closes bars)) (rolling 40 listMax (closes bars))

/-- Source predicate column `posok` (= `C > R55`). -/
def posok (bars : List Bar) : List Bool :=
  List.zipWith (fun c r => oGt (some c) r) (closes bars) (r55 bars)

/-- Source predicate column `trigger` (= `plry_cnt | (bd & bigv & posok)`). -/
def trigger (bars : List Bar) : List Bool :=
  List.zipWith (· || ·) (plry_cnt bars)
    (List.zipWith (· && ·) (List.zipWith (· && ·) (bd bars) (bigv bars)) (posok bars))

/-- Source column `dif` of `calculate_macd` on a close column
(= `ewm(span=12) - ewm(span=26)`). -/
def difOf (cs : List ℚ) : List ℚ :=
  List.zipWith (· - ·) (ewm 12 cs) (ewm 26 cs)

/-- Source column `dea` of `calculate_macd` (= `dif.ewm(span=9).mean()`). -/
def deaOf (cs : List ℚ) : List ℚ := ewm 9 (difOf cs)

/-- Source column `macd` of `calculate_macd` (= `(dif - dea) * 2`; computed
but unused downstream). -/
def macdHistOf (cs : List ℚ) : List ℚ :=
  List.zipWith (fun a b => (a - b) * 2) (difOf cs) (deaOf cs)

/-- Source predicate column `macd_ok` (= `dif > 0`; `dif` is always defined,
so this is a plain comparison). -/
def macd_ok (bars : List Bar) : List Bool :=
  (difOf (closes bars)).map fun x => decide (0 < x)

/-- Source selection column `XG`
(= `j_ok & trigger & lq & mvok & max28_ok & yangyin_ok & macd_ok`). -/
def xg (bars : List Bar) : List Bool :=
  List.zipWith (· && ·)
    (List.zipWith (· && ·)
      (List.zipWith (· && ·)
        (List.zipWith (· && ·)
          (List.zipWith (· && ·)
            (List.zipWith (· && ·) (j_ok bars) (trigger bars))
            (lq bars))
          (mvok bars))
        (max28_ok bars))
      (yangyin_ok bars))
    (macd_ok bars)

/-- Diagnostic name-to-value map of an `AnalysisResult` (source dict
`indicators` of `analyze_stock`, lines 230-239).  The source stores
`latest['XG']` — not the `j_ok` predicate — under the key `'J_OK'` whenever
`J` is defined.  `DIF` is always defined, so the `'DIF>0'` entry is the last
`macd_ok` value. -/
structure Indicators where
  J : Option ℚ
  J_OK : Bool
  TRIGGER : Bool
  LQ : Bool
  MAX28_OK : Bool
  YANGYIN_OK : Bool
  MACD_DIF : ℚ
  DIF_POS : Bool
deriving DecidableEq

/-- Result of `analyze_stock` for one series (source dict, lines 226-241). -/
structure AnalysisResult where
  date : ℤ
  selected : Bool
  indicators : Indicators
  lastBar : Bar
deriving DecidableEq

/-- Default bar used only as the (unreachable) `getLastD` fallback. -/
def defBar : Bar := ⟨0, 0, 0, 0, 0, 0, none⟩

/-- Source function `analyze_stock`: `None` on fewer than 60 bars, otherwise
the final bar's selection flag and diagnostic values.  The source's
defensive re-sort by date is the identity on a `Series` (sorted ascending by
date per the data model), so the embedding takes the sorted series
directly. -/
def analyze_stock (bars : List Bar) : Option AnalysisResult :=
  if bars.length < 60 then none
  else some
    { date := (bars.getLastD defBar).date
      selected := (xg bars).getLastD false
      indicators :=
        { J := (jCol bars).getLastD none
          J_OK := if ((jCol bars).getLastD none).isSome then (xg bars).getLastD false else false
          TRIGGER := (trigger bars).getLastD false
          LQ := (lq bars).getLastD false
          MAX28_OK := (max28_ok bars).getLastD false
          YANGYIN_OK := (yangyin_ok bars).getLastD false
          MACD_DIF := (difOf (closes bars)).getLastD 0
          DIF_POS := (macd_ok bars).getLastD false }
      lastBar := bars.getLastD defBar }

/-- Market-cap entry `MVOK` recorded by `run_stock_selection` (lines
319-328): `mv >= 30` when the instrument has a snapshot entry, default-pass
`True` otherwise. -/
def mvokOf (cap : Option ℚ) : Bool :=
  match cap with
  | some mv => decide (mv ≥ 30)
  | none => true

/-- Final selection flag reported by `run_stock_selection` (lines 319-328):
the `analyze_stock` flag, forced to `False` when a market-cap snapshot
exists and is below 30. -/
def selectedAfterSpot (cap : Option ℚ) (sel : Bool) : Bool :=
  match cap with
  | some mv => if mv < 30 then false else sel
  | none => sel

/-- Reported per-instrument selection outcome of `run_stock_selection`:
`none` when the series is skipped for insufficient history, otherwise the
market-cap-adjusted flag. -/
def run_selected (bars : List Bar) (cap : Option ℚ) : Option Bool :=
  (analyze_stock bars).map fun r => selectedAfterSpot cap r.selected

/-- Flat bar of the spec's constant-price scenario:
`open = high = low = close = 100`, `volume = 1000`. -/
def flatBar : Bar := ⟨0, 100, 100, 100, 100, 1000, none⟩

/-- The spec's 70-bar flat series. -/
def flat70 : List Bar := List.replicate 70 flatBar

/-- A 59-bar flat series (for the insufficient-history boundary). -/
def flat59 : List Bar := List.replicate 59 flatBar

/-- One bar closing at its 9-bar low after a flat stretch:
`open = high = 100`, `low = close = 90`, `volume = 1000`. -/
def dropBar : Bar := ⟨59, 100, 100, 90, 90, 1000, none⟩

/-- A 60-bar series: 59 flat bars followed by `dropBar`.  Its final `J` is
`100/9 ≤ 13` while the final selection flag is false (no trigger). -/
def dropSeries : List Bar := List.replicate 59 flatBar ++ [dropBar]

/-- Bar 0 of the spec's 2-row synthetic series (`O=H=L=C=10`, `V=100`). -/
def synthBar0 : Bar := ⟨0, 10, 10, 10, 10, 100, none⟩

/-- Bar 1 of the spec's 2-row synthetic series
(`O=10`, `H=11`, `L=9`, `C=10.5`, `V=120`). -/
def synthBar1 : Bar := ⟨1, 10, 11, 9, 21/2, 120, none⟩

/-- Modelled from the spec (§4.4): the candle label `LooseBullish` as the
claim states it — undefined at bar 0 (it needs the previous close), and
`NOT(close[i] < close[i-1])` from bar 1 on.  Used only to compare the
claim's reading with the source's `fake_yang`. -/
def looseBullishClaimed (cs : List ℚ) : List (Option Bool) :=
  (List.range cs.length).map fun i =>
    if i = 0 then none else some (!decide (cs.getD i 0 < cs.getD (i - 1) 0))

section BasicLemmas

@[simp] theorem length_zipWith3 (f : α → β → γ → δ) :
    ∀ (as : List α) (bs : List β) (cs : List γ),
      (zipWith3 f as bs cs).length = min as.length (min bs.length cs.length)
  | [], _, _ => by simp [zipWith3]
  | _ :: _, [], _ => by simp [zipWith3]
  | _ :: _, _ :: _, [] => by simp [zipWith3]
  | a :: as, b :: bs, c :: cs => by
      simp [zipWith3, length_zipWith3 f as bs cs]
      omega

@[simp] theorem length_rolling (w : ℕ) (f : List ℚ → ℚ) (xs : List ℚ) :
    (rolling w f xs).length = xs.length := by
  simp [rolling]

@[simp] theorem length_rollingO (w : ℕ) (f : List ℚ → ℚ) (xs : List (Option ℚ)) :
    (rollingO w f xs).length = xs.length := by
  simp [rollingO]

@[simp] theorem length_shift1 (xs : List α) : (shift1 xs).length = xs.length := by
  simp [shift1]

theorem getD_eq_getElem?_getD (l : List α) (i : ℕ) (d : α) :
    l.getD i d = l[i]?.getD d :=
  List.getD_eq_getElem?_getD l i d

theorem zipWith_getElem?_eq (f : α → β → γ) (da : α) (db : β) :
    ∀ (xs : List α) (ys : List β) (i : ℕ), i < xs.length → i < ys.length →
      (List.zipWith f xs ys)[i]? = some (f (xs.getD i da) (ys.getD i db))
  | [], _, i, hx, _ => by simp at hx
  | _ :: _, [], i, _, hy => by simp at hy
  | x :: xs, y :: ys, 0, _, _ => by simp
  | x :: xs, y :: ys, i + 1, hx, hy => by
      simpa using zipWith_getElem?_eq f da db xs ys i
        (by simpa using hx) (by simpa using hy)

theorem zipWith3_getElem?_eq (f : α → β → γ → δ) (da : α) (db : β) (dc : γ) :
    ∀ (as : List α) (bs : List β) (cs : List γ) (i : ℕ),
      i < as.length → i < bs.length → i < cs.length →
      (zipWith3 f as bs cs)[i]? = some (f (as.getD i da) (bs.getD i db) (cs.getD i dc))
  | [], _, _, i, ha, _, _ => by simp at ha
  | _ :: _, [], _, i, _, hb, _ => by simp at hb
  | _ :: _, _ :: _, [], i, _, _, hc => by simp at hc
  | a :: as, b :: bs, c :: cs, 0, _, _, _ => by simp [zipWith3]
  | a :: as, b :: bs, c :: cs, i + 1, ha, hb, hc => by
      simpa [zipWith3] using zipWith3_getElem?_eq f da db dc as bs cs i
        (by simpa using ha) (by simpa using hb) (by simpa using hc)

theorem rolling_getElem?_eq (w : ℕ) (f : List ℚ → ℚ) (xs : List ℚ) (i : ℕ)
    (hi : i < xs.length) :
    (rolling w f xs)[i]? =
      some (if i + 1 < w then none else some (f (windowEnd w i xs))) := by
  simp [rolling, List.getElem?_range hi]

theorem rollingO_getElem?_eq (w : ℕ) (f : List ℚ → ℚ) (xs : List (Option ℚ)) (i : ℕ)
    (hi : i < xs.length) :
    (rollingO w f xs)[i]? =
      some (if i + 1 < w then none else (allSome (windowEnd w i xs)).map f) := by
  simp [rollingO, List.getElem?_range hi]

theorem shift1_getElem?_zero (xs : List α) (h : xs ≠ []) :
    (shift1 xs)[0]? = some none := by
  cases xs with
  | nil => simp at h
  | cons x t => simp [shift1]

theorem shift1_getElem?_succ (xs : List α) (i : ℕ) (d : α) (h : i + 1 < xs.length) :
    (shift1 xs)[i + 1]? = some (some (xs.getD i d)) := by
  have hi : i < xs.length := by omega
  simp [shift1, List.getElem?_take, h, List.getElem?_map, List.getElem?_eq_getElem hi,
    getD_eq_getElem?_getD]

theorem getLastD_eq_getD (l : List α) (d : α) :
    l.getLastD d = l.getD (l.length - 1) d := by
  rw [List.getLastD_eq_getLast?, List.getLast?_eq_getElem?, getD_eq_getElem?_getD]

end BasicLemmas

section SmaLemmas

@[simp] theorem length_smaGo (n m : ℚ) :
    ∀ (prev : Option ℚ) (xs : List (Option ℚ)), (smaGo n m prev xs).length = xs.length
  | _, [] => rfl
  | prev, x :: xs => by simp [smaGo, length_smaGo n m _ xs]

@[simp] theorem length_sma (series : List (Option ℚ)) (n m : ℚ) :
    (sma series n m).length = series.length := by
  cases series with
  | nil => rfl
  | cons x xs => simp [sma]

@[simp] theorem length_ewmGo (a : ℚ) :
    ∀ (prev : ℚ) (xs : List ℚ), (ewmGo a prev xs).length = xs.length
  | _, [] => rfl
  | prev, x :: xs => by simp [ewmGo, length_ewmGo a _ xs]

@[simp] theorem length_ewm (span : ℚ) (xs : List ℚ) : (ewm span xs).length = xs.length := by
  cases xs with
  | nil => rfl
  | cons x rest => simp [ewm]

theorem smaGo_getD_succ (n m : ℚ) :
    ∀ (xs : List (Option ℚ)) (prev : Option ℚ) (i : ℕ), i + 1 < xs.length →
      (smaGo n m prev xs).getD (i + 1) none =
        smaStep n m ((smaGo n m prev xs).getD i none) (xs.getD (i + 1) none)
  | [], _, i, h => by simp at h
  | x :: xs, prev, 0, h => by
      cases xs with
      | nil => simp at h
      | cons y ys => simp [smaGo]
  | x :: xs, prev, i + 1, h => by
      simpa [smaGo] using smaGo_getD_succ n m xs (smaStep n m prev x) i (by simpa using h)

theorem sma_getD_zero (x : Option ℚ) (xs : List (Option ℚ)) (n m : ℚ) :
    (sma (x :: xs) n m).getD 0 none = x := rfl

theorem sma_getD_step (series : List (Option ℚ)) (n m : ℚ) (i : ℕ)
    (h1 : 1 ≤ i) (h2 : i < series.length) :
    (sma series n m).getD i none =
      smaStep n m ((sma series n m).getD (i - 1) none) (series.getD i none) := by
  cases series with
  | nil => simp at h2
  | cons x xs =>
      match i, h1 with
      | 1, _ =>
          cases xs with
          | nil => simp at h2
          | cons y ys => simp [sma, smaGo]
      | (j + 2), _ =>
          have hj : j + 1 < xs.length := by
            simp only [List.length_cons] at h2
            omega
          simpa [sma] using smaGo_getD_succ n m xs x j hj

theorem smaGo_take (n m : ℚ) :
    ∀ (xs : List (Option ℚ)) (prev : Option ℚ) (k : ℕ),
      (smaGo n m prev xs).take k = smaGo n m prev (xs.take k)
  | [], _, k => by simp [smaGo]
  | x :: xs, prev, 0 => by simp [smaGo]
  | x :: xs, prev, k + 1 => by
      simp [smaGo, smaGo_take n m xs (smaStep n m prev x) k]

theorem sma_take (series : List (Option ℚ)) (n m : ℚ) (k : ℕ) :
    (sma series n m).take k = sma (series.take k) n m := by
  cases series with
  | nil => simp [sma]
  | cons x xs =>
      cases k with
      | zero => simp [sma]
      | succ j => simp [sma, smaGo_take]

theorem smaGo_append (n m : ℚ) :
    ∀ (xs : List (Option ℚ)) (prev : Option ℚ) (ys : List (Option ℚ)),
      smaGo n m prev (xs ++ ys) =
        smaGo n m prev xs ++ smaGo n m ((smaGo n m prev xs).getLastD prev) ys
  | [], _, ys => by simp [smaGo]
  | x :: xs, prev, ys => by
      simp only [List.cons_append, smaGo, List.getLastD_cons, List.append_eq]
      rw [smaGo_append n m xs (smaStep n m prev x) ys]

theorem sma_snoc (series : List (Option ℚ)) (n m : ℚ) (x : Option ℚ)
    (h : series ≠ []) :
    sma (series ++ [x]) n m =
      sma series n m ++ [smaStep n m ((sma series n m).getLastD none) x] := by
  cases series with
  | nil => simp at h
  | cons y ys =>
      simp only [List.cons_append, sma, smaGo_append, List.getLastD_cons]
      cases ys with
      | nil => simp [smaGo]
      | cons z zs => simp [smaGo, List.getLastD_cons]

end SmaLemmas

section LengthLemmas

variable (bars : List Bar)

@[simp] theorem length_closes : (closes bars).length = bars.length := by simp [closes]

@[simp] theorem length_opns : (opns bars).length = bars.length := by simp [opns]

@[simp] theorem length_highs : (highs bars).length = bars.length := by simp [highs]

@[simp] theorem length_lows : (lows bars).length = bars.length := by simp [lows]

@[simp] theorem length_vols : (vols bars).length = bars.length := by simp [vols]

@[simp] theorem length_amounts : (amounts bars).length = bars.length := by simp [amounts]

@[simp] theorem length_ref_c_1 : (ref_c_1 bars).length = bars.length := by simp [ref_c_1]

@[simp] theorem length_rsv : (rsv bars).length = bars.length := by simp [rsv, rsvOf]

@[simp] theorem length_kCol : (kCol bars).length = bars.length := by simp [kCol]

@[simp] theorem length_dCol : (dCol bars).length = bars.length := by simp [dCol]

@[simp] theorem length_jCol : (jCol bars).length = bars.length := by simp [jCol]

@[simp] theorem length_j_ok : (j_ok bars).length = bars.length := by simp [j_ok]

@[simp] theorem length_real_yang : (real_yang bars).length = bars.length := by simp [real_yang]

@[simp] theorem length_real_yin : (real_yin bars).length = bars.length := by simp [real_yin]

@[simp] theorem length_fake_yang : (fake_yang bars).length = bars.length := by simp [fake_yang]

@[simp] theorem length_fake_yin : (fake_yin bars).length = bars.length := by simp [fake_yin]

@[simp] theorem length_volLabelSum (w : ℕ) (label : List Bool)
    (h : label.length = bars.length) :
    (volLabelSum w bars label).length = bars.length := by
  simp [volLabelSum, h]

@[simp] theorem length_yangyin_ok : (yangyin_ok bars).length = bars.length := by
  simp [yangyin_ok, vol_yang21, vol_yin21, vol_yang14, vol_yin14, vol_fakeyang21,
    vol_fakeyin21, vol_fakeyang14, vol_fakeyin14, vol_fakeyang10, vol_fakeyin10, volLabelSum]

@[simp] theorem length_a28 : (a28 bars).length = bars.length := by simp [a28]

@[simp] theorem length_lq : (lq bars).length = bars.length := by simp [lq]

@[simp] theorem length_mvok : (mvok bars).length = bars.length := by simp [mvok]

@[simp] theorem length_max28_ok : (max28_ok bars).length = bars.length := by
  simp [max28_ok, maxvol28]

@[simp] theorem length_plry : (plry bars).length = bars.length := by
  simp [plry, avg40]

@[simp] theorem length_plry_cnt : (plry_cnt bars).length = bars.length := by
  simp [plry_cnt]

@[simp] theorem length_v40p : (v40p bars).length = bars.length := by simp [v40p]

@[simp] theorem length_bd : (bd bars).length = bars.length := by simp [bd]

@[simp] theorem length_bigv : (bigv bars).length = bars.length := by simp [bigv]

@[simp] theorem length_r55 : (r55 bars).length = bars.length := by simp [r55]

@[simp] theorem length_posok : (posok bars).length = bars.length := by simp [posok]

@[simp] theorem length_trigger : (trigger bars).length = bars.length := by
  simp [trigger]

@[simp] theorem length_difOf (cs : List ℚ) : (difOf cs).length = cs.length := by
  simp [difOf]

@[simp] theorem length_deaOf (cs : List ℚ) : (deaOf cs).length = cs.length := by
  simp [deaOf]

@[simp] theorem length_macd_ok : (macd_ok bars).length = bars.length := by
  simp [macd_ok]

@[simp] theorem length_xg : (xg bars).length = bars.length := by
  simp [xg]

end LengthLemmas

section LastLemmas

theorem getLastD_default_irrel (l : List α) (d e : α) (h : l ≠ []) :
    l.getLastD d = l.getLastD e := by
  rw [List.getLastD_eq_getLast?, List.getLastD_eq_getLast?]
  cases hl : l.getLast? with
  | none => exact absurd (List.getLast?_eq_none_iff.mp hl) h
  | some a => simp

theorem getLastD_zipWith (f : α → β → γ) (da : α) (db : β) (dc : γ)
    (xs : List α) (ys : List β) (hlen : ys.length = xs.length) (hne : xs ≠ []) :
    (List.zipWith f xs ys).getLastD dc = f (xs.getLastD da) (ys.getLastD db) := by
  have hL : 0 < xs.length := List.length_pos.mpr hne
  have hz : (List.zipWith f xs ys).length = xs.length := by simp [hlen]
  rw [getLastD_eq_getD, getLastD_eq_getD, getLastD_eq_getD, hz, hlen,
    getD_eq_getElem?_getD,
    zipWith_getElem?_eq f da db xs ys (xs.length - 1) (by omega) (by omega)]
  simp

theorem getLastD_zipWith3 (f : α → β → γ → δ) (da : α) (db : β) (dc : γ) (dd : δ)
    (as : List α) (bs : List β) (cs : List γ)
    (hb : bs.length = as.length) (hc : cs.length = as.length) (hne : as ≠ []) :
    (zipWith3 f as bs cs).getLastD dd =
      f (as.getLastD da) (bs.getLastD db) (cs.getLastD dc) := by
  have hL : 0 < as.length := List.length_pos.mpr hne
  have hz : (zipWith3 f as bs cs).length = as.length := by simp [hb, hc]
  rw [getLastD_eq_getD, getLastD_eq_getD, getLastD_eq_getD, getLastD_eq_getD, hz, hb, hc,
    getD_eq_getElem?_getD,
    zipWith3_getElem?_eq f da db dc as bs cs (as.length - 1) (by omega) (by omega) (by omega)]
  simp

theorem getLastD_map (f : α → β) (d : α) (e : β) (l : List α) (h : l ≠ []) :
    (l.map f).getLastD e = f (l.getLastD d) := by
  have hL : 0 < l.length := List.length_pos.mpr h
  have hm : (l.map f).length = l.length := by simp
  rw [getLastD_eq_getD, getLastD_eq_getD, hm, getD_eq_getElem?_getD, List.getElem?_map,
    getD_eq_getElem?_getD, List.getElem?_eq_getElem (by omega : l.length - 1 < l.length)]
  simp

theorem getLastD_replicate (n : ℕ) (a : α) (d : α) (h : n ≠ 0) :
    (List.replicate n a).getLastD d = a := by
  cases n with
  | zero => simp at h
  | succ k =>
      rw [List.replicate_succ', List.getLastD_eq_getLast?]
      simp

variable (bars : List Bar)

theorem xg_getLastD (hne : bars ≠ []) :
    (xg bars).getLastD false =
      (((((((j_ok bars).getLastD false && (trigger bars).getLastD false) &&
        (lq bars).getLastD false) && (mvok bars).getLastD false) &&
        (max28_ok bars).getLastD false) && (yangyin_ok bars).getLastD false) &&
        (macd_ok bars).getLastD false) := by
  have h1 : bars.length ≠ 0 := by
    have := List.length_pos.mpr hne
    omega
  have hJ : (j_ok bars) ≠ [] := by
    rw [← List.length_pos]; simp; omega
  have hJT : (List.zipWith (· && ·) (j_ok bars) (trigger bars)) ≠ [] := by
    rw [← List.length_pos]; simp; omega
  have hJTL : (List.zipWith (· && ·) (List.zipWith (· && ·) (j_ok bars) (trigger bars))
      (lq bars)) ≠ [] := by
    rw [← List.length_pos]; simp; omega
  have hJTLM : (List.zipWith (· && ·) (List.zipWith (· && ·)
      (List.zipWith (· && ·) (j_ok bars) (trigger bars)) (lq bars)) (mvok bars)) ≠ [] := by
    rw [← List.length_pos]; simp; omega
  have hJTLMX : (List.zipWith (· && ·) (List.zipWith (· && ·) (List.zipWith (· && ·)
      (List.zipWith (· && ·) (j_ok bars) (trigger bars)) (lq bars)) (mvok bars))
      (max28_ok bars)) ≠ [] := by
    rw [← List.length_pos]; simp; omega
  have hJTLMXY : (List.zipWith (· && ·) (List.zipWith (· && ·) (List.zipWith (· && ·)
      (List.zipWith (· && ·) (List.zipWith (· && ·) (j_ok bars) (trigger bars)) (lq bars))
      (mvok bars)) (max28_ok bars)) (yangyin_ok bars)) ≠ [] := by
    rw [← List.length_pos]; simp; omega
  rw [xg,
    getLastD_zipWith (· && ·) false false false _ _ (by simp) hJTLMXY,
    getLastD_zipWith (· && ·) false false false _ _ (by simp) hJTLMX,
    getLastD_zipWith (· && ·) false false false _ _ (by simp) hJTLM,
    getLastD_zipWith (· && ·) false false false _ _ (by simp) hJTL,
    getLastD_zipWith (· && ·) false false false _ _ (by simp) hJT,
    getLastD_zipWith (· && ·) false false false _ _ (by simp) hJ]

theorem mvok_getLastD (hne : bars ≠ []) : (mvok bars).getLastD false = true := by
  have h1 : bars.length ≠ 0 := by
    have := List.length_pos.mpr hne
    omega
  rw [mvok, getLastD_replicate _ _ _ h1]

theorem trigger_getLastD (hne : bars ≠ []) :
    (trigger bars).getLastD false =
      ((plry_cnt bars).getLastD false ||
        (((bd bars).getLastD false && (bigv bars).getLastD false) &&
          (posok bars).getLastD false)) := by
  have h1 : bars.length ≠ 0 := by
    have := List.length_pos.mpr hne
    omega
  have hP : (plry_cnt bars) ≠ [] := by
    rw [← List.length_pos]; simp; omega
  have hBD : (bd bars) ≠ [] := by
    rw [← List.length_pos]; simp; omega
  have hBB : (List.zipWith (· && ·) (bd bars) (bigv bars)) ≠ [] := by
    rw [← List.length_pos]; simp; omega
  rw [trigger,
    getLastD_zipWith (· || ·) false false false _ _ (by simp) hP,
    getLastD_zipWith (· && ·) false false false _ _ (by simp) hBB,
    getLastD_zipWith (· && ·) false false false _ _ (by simp) hBD]

theorem j_ok_getLastD (hne : bars ≠ []) :
    (j_ok bars).getLastD false = oLe ((jCol bars).getLastD none) (some 13) := by
  have hJ : (jCol bars) ≠ [] := by
    rw [← List.length_pos, length_jCol]
    exact List.length_pos.mpr hne
  rw [j_ok, getLastD_map _ none _ _ hJ]

theorem jCol_getLastD (hne : bars ≠ []) :
    (jCol bars).getLastD none =
      o2 (· - ·) (oSMul 3 ((kCol bars).getLastD none)) (oSMul 2 ((dCol bars).getLastD none)) := by
  have hK : (kCol bars) ≠ [] := by
    rw [← List.length_pos, length_kCol]
    exact List.length_pos.mpr hne
  rw [jCol, getLastD_zipWith _ none none none _ _ (by simp) hK]

theorem macd_ok_getLastD (hne : bars ≠ []) :
    (macd_ok bars).getLastD false = decide (0 < (difOf (closes bars)).getLastD 0) := by
  have hD : (difOf (closes bars)) ≠ [] := by
    rw [← List.length_pos, length_difOf, length_closes]
    exact List.length_pos.mpr hne
  rw [macd_ok, getLastD_map _ 0 _ _ hD]

end LastLemmas

section ReplicateLemmas

theorem getD_replicate (n : ℕ) (a d : α) (i : ℕ) (h : i < n) :
    (List.replicate n a).getD i d = a := by
  rw [getD_eq_getElem?_getD, List.getElem?_replicate]
  simp [h]

theorem windowEnd_replicate (w i n : ℕ) (a : α) (hw : w ≤ i + 1) (hn : i < n) :
    windowEnd w i (List.replicate n a) = List.replicate w a := by
  rw [windowEnd, List.take_replicate, List.drop_replicate]
  congr 1
  omega

theorem foldl_min_replicate (a : ℚ) : ∀ (k : ℕ), (List.replicate k a).foldl min a = a
  | 0 => rfl
  | k + 1 => by
      rw [List.replicate_succ, List.foldl_cons, min_self]
      exact foldl_min_replicate a k

theorem foldl_max_replicate (a : ℚ) : ∀ (k : ℕ), (List.replicate k a).foldl max a = a
  | 0 => rfl
  | k + 1 => by
      rw [List.replicate_succ, List.foldl_cons, max_self]
      exact foldl_max_replicate a k

theorem listMin_replicate (k : ℕ) (a : ℚ) : listMin (List.replicate (k + 1) a) = a := by
  rw [List.replicate_succ, listMin]
  exact foldl_min_replicate a k

theorem listMax_replicate (k : ℕ) (a : ℚ) : listMax (List.replicate (k + 1) a) = a := by
  rw [List.replicate_succ, listMax]
  exact foldl_max_replicate a k

theorem foldl_add_replicate_zero : ∀ (k : ℕ) (acc : ℚ),
    (List.replicate k (0:ℚ)).foldl (· + ·) acc = acc
  | 0, acc => rfl
  | k + 1, acc => by
      rw [List.replicate_succ, List.foldl_cons, add_zero]
      exact foldl_add_replicate_zero k acc

theorem listSum_replicate_zero (k : ℕ) : listSum (List.replicate k (0:ℚ)) = 0 :=
  foldl_add_replicate_zero k 0

theorem shift1_replicate (m : ℕ) (a : α) :
    shift1 (List.replicate (m + 1) a) = none :: List.replicate m (some a) := by
  rw [shift1, List.map_replicate, List.length_replicate, List.take_succ_cons,
    List.take_replicate, Nat.min_eq_left (Nat.le_succ m)]

theorem zipWith_false_left : ∀ (n : ℕ) (l : List Bool),
    List.zipWith (· && ·) (List.replicate n false) l =
      List.replicate (min n l.length) false
  | 0, l => by simp
  | n + 1, [] => by simp
  | n + 1, b :: t => by
      rw [List.replicate_succ, List.zipWith_cons_cons, zipWith_false_left n t,
        List.length_cons, Nat.succ_min_succ, List.replicate_succ]
      simp

theorem getLastD_append (l1 l2 : List α) (d : α) (h : l2 ≠ []) :
    (l1 ++ l2).getLastD d = l2.getLastD d := by
  rw [List.getLastD_eq_getLast?, List.getLastD_eq_getLast?,
    List.getLast?_append_of_ne_nil _ h]

theorem smaStep_self (c : ℚ) : smaStep 3 1 (some c) (some c) = some c := by
  simp only [smaStep, Option.map_some']
  congr 1
  ring_nf

theorem smaGo_const (c : ℚ) : ∀ (k : ℕ),
    smaGo 3 1 (some c) (List.replicate k (some c)) = List.replicate k (some c)
  | 0 => rfl
  | k + 1 => by
      rw [List.replicate_succ, smaGo, smaStep_self c, smaGo_const c k,
        ← List.replicate_succ]

theorem smaGo_none_all : ∀ (j : ℕ) (l : List (Option ℚ)),
    smaGo 3 1 none (List.replicate j none ++ l) =
      List.replicate j none ++ smaGo 3 1 none l
  | 0, l => by simp
  | j + 1, l => by
      rw [List.replicate_succ, List.cons_append, smaGo]
      have hstep : smaStep 3 1 none none = none := rfl
      rw [hstep, smaGo_none_all j l, List.cons_append]

theorem smaGo_none_then_const (j m : ℕ) (c : ℚ) :
    smaGo 3 1 none (List.replicate j none ++ List.replicate m (some c)) =
      List.replicate j none ++ List.replicate m (some c) := by
  rw [smaGo_none_all]
  congr 1
  cases m with
  | zero => rfl
  | succ m' =>
      rw [List.replicate_succ, smaGo]
      have hstep : smaStep 3 1 none (some c) = some c := rfl
      rw [hstep, smaGo_const c m', ← List.replicate_succ]

theorem sma_flatlike (k m : ℕ) (c : ℚ) :
    sma (List.replicate k none ++ List.replicate m (some c)) 3 1 =
      List.replicate k none ++ List.replicate m (some c) := by
  cases k with
  | zero =>
      cases m with
      | zero => rfl
      | succ m' =>
          simp only [List.replicate, List.nil_append]
          rw [sma, smaGo_const c m']
  | succ k' =>
      rw [List.replicate_succ, List.cons_append, sma, smaGo_none_then_const]

end ReplicateLemmas

section RollingValueLemmas

theorem rolling_getD_small (w : ℕ) (f : List ℚ → ℚ) (xs : List ℚ) (i : ℕ)
    (hi : i < xs.length) (h : i + 1 < w) :
    (rolling w f xs).getD i none = none := by
  rw [getD_eq_getElem?_getD, rolling_getElem?_eq w f xs i hi]
  simp [h]

theorem rolling_getD_full (w : ℕ) (f : List ℚ → ℚ) (xs : List ℚ) (i : ℕ)
    (hi : i < xs.length) (h : w ≤ i + 1) :
    (rolling w f xs).getD i none = some (f (windowEnd w i xs)) := by
  rw [getD_eq_getElem?_getD, rolling_getElem?_eq w f xs i hi]
  simp [Nat.not_lt.mpr h]

theorem rolling_replicate_getD (w n i : ℕ) (f : List ℚ → ℚ) (a : ℚ)
    (hw : w ≤ i + 1) (hn : i < n) :
    (rolling w f (List.replicate n a)).getD i none = some (f (List.replicate w a)) := by
  rw [rolling_getD_full w f _ i (by simp [hn]) hw, windowEnd_replicate w i n a hw hn]

end RollingValueLemmas

section Flat70Lemmas

theorem closes_flat70 : closes flat70 = List.replicate 70 (100:ℚ) := by
  simp [closes, flat70, flatBar]

theorem opns_flat70 : opns flat70 = List.replicate 70 (100:ℚ) := by
  simp [opns, flat70, flatBar]

theorem highs_flat70 : highs flat70 = List.replicate 70 (100:ℚ) := by
  simp [highs, flat70, flatBar]

theorem lows_flat70 : lows flat70 = List.replicate 70 (100:ℚ) := by
  simp [lows, flat70, flatBar]

theorem rsvStep_undefined (c : ℚ) : rsvStep c none none = none := by
  simp [rsvStep, o2, oNe]

theorem rsvStep_zero_range (c a : ℚ) : rsvStep c (some a) (some a) = some 50 := by
  simp [rsvStep, o2, oNe]

theorem rsv_flat70 : rsv flat70 = List.replicate 8 none ++ List.replicate 62 (some 50) := by
  apply List.ext_getElem?
  intro i
  by_cases hi : i < 70
  · rw [rsv, rsvOf, closes_flat70, lows_flat70, highs_flat70,
      zipWith3_getElem?_eq rsvStep 0 none none _ _ _ i (by simp [hi]) (by simp [hi])
        (by simp [hi]),
      getD_replicate _ _ _ _ hi]
    by_cases h8 : i < 8
    · rw [rolling_getD_small 9 listMin _ i (by simp [hi]) (by omega),
        rolling_getD_small 9 listMax _ i (by simp [hi]) (by omega),
        rsvStep_undefined,
        List.getElem?_append_left (by simp; omega),
        List.getElem?_replicate]
      simp [h8]
    · rw [rolling_replicate_getD 9 70 i listMin 100 (by omega) hi,
        rolling_replicate_getD 9 70 i listMax 100 (by omega) hi,
        listMin_replicate 8 100, listMax_replicate 8 100,
        rsvStep_zero_range,
        List.getElem?_append_right (by simp; omega),
        List.getElem?_replicate]
      have : i - 8 < 62 := by omega
      simp [this]
  · rw [List.getElem?_eq_none (by simp [flat70]; omega),
      List.getElem?_eq_none (by simp; omega)]

theorem kCol_flat70 : kCol flat70 = List.replicate 8 none ++ List.replicate 62 (some 50) := by
  rw [kCol, rsv_flat70, sma_flatlike]

theorem dCol_flat70 : dCol flat70 = List.replicate 8 none ++ List.replicate 62 (some 50) := by
  rw [dCol, kCol_flat70, sma_flatlike]

theorem flat70_ne_nil : flat70 ≠ [] := by
  rw [← List.length_pos]
  simp [flat70]

theorem kCol_flat70_last : (kCol flat70).getLastD none = some 50 := by
  rw [kCol_flat70, getLastD_append _ _ _ (by simp), getLastD_replicate _ _ _ (by omega)]

theorem dCol_flat70_last : (dCol flat70).getLastD none = some 50 := by
  rw [dCol_flat70, getLastD_append _ _ _ (by simp), getLastD_replicate _ _ _ (by omega)]

theorem jCol_flat70_last : (jCol flat70).getLastD none = some 50 := by
  rw [jCol_getLastD _ flat70_ne_nil, kCol_flat70_last, dCol_flat70_last]
  simp only [oSMul, Option.map_some', o2]
  norm_num

theorem j_ok_flat70_last : (j_ok flat70).getLastD false = false := by
  rw [j_ok_getLastD _ flat70_ne_nil, jCol_flat70_last]
  simp only [oLe, oCmp]
  norm_num

theorem xg_flat70_last : (xg flat70).getLastD false = false := by
  rw [xg_getLastD _ flat70_ne_nil, j_ok_flat70_last]
  simp

end Flat70Lemmas

section DropSeriesLemmas

theorem windowEnd_append_left (w i : ℕ) (l1 l2 : List α) (h : i + 1 ≤ l1.length) :
    windowEnd w i (l1 ++ l2) = windowEnd w i l1 := by
  rw [windowEnd, windowEnd, List.take_append_of_le_length h]

theorem dropSeries_length : dropSeries.length = 60 := by
  simp [dropSeries]

theorem dropSeries_ne_nil : dropSeries ≠ [] := by
  rw [← List.length_pos, dropSeries_length]
  omega

theorem closes_dropSeries : closes dropSeries = List.replicate 59 (100:ℚ) ++ [90] := by
  simp [closes, dropSeries, flatBar, dropBar]

theorem lows_dropSeries : lows dropSeries = List.replicate 59 (100:ℚ) ++ [90] := by
  simp [lows, dropSeries, flatBar, dropBar]

theorem highs_dropSeries : highs dropSeries = List.replicate 60 (100:ℚ) := by
  simp only [highs, dropSeries, List.map_append, List.map_replicate, List.map_cons,
    List.map_nil, List.replicate_succ']
  simp [flatBar, dropBar]

theorem opns_dropSeries : opns dropSeries = List.replicate 60 (100:ℚ) := by
  simp only [opns, dropSeries, List.map_append, List.map_replicate, List.map_cons,
    List.map_nil, List.replicate_succ']
  simp [flatBar, dropBar]

theorem vols_dropSeries : vols dropSeries = List.replicate 60 (1000:ℚ) := by
  simp only [vols, dropSeries, List.map_append, List.map_replicate, List.map_cons,
    List.map_nil, List.replicate_succ']
  simp [flatBar, dropBar]

theorem rsvStep_defined (c l h : ℚ) (hne : h - l ≠ 0) :
    rsvStep c (some l) (some h) = some ((c - l) / (h - l) * 100) := by
  simp [rsvStep, o2, oNe, hne]

theorem listMin_flat_then_drop :
    listMin (List.replicate 8 (100:ℚ) ++ [90]) = 90 := by
  have h : (List.replicate 8 (100:ℚ) ++ [90]) = 100 :: (List.replicate 7 (100:ℚ) ++ [90]) := by
    rw [show (8:ℕ) = 7 + 1 from rfl, List.replicate_succ, List.cons_append]
  rw [h, listMin, List.foldl_append, foldl_min_replicate]
  simp [min_eq_right]
  norm_num

theorem rsv_dropSeries :
    rsv dropSeries =
      (List.replicate 8 none ++ List.replicate 51 (some 50)) ++ [some 0] := by
  apply List.ext_getElem?
  intro i
  by_cases hi : i < 60
  · rw [rsv, rsvOf, closes_dropSeries, lows_dropSeries, highs_dropSeries,
      zipWith3_getElem?_eq rsvStep 0 none none _ _ _ i (by simp; omega) (by simp; omega)
        (by simp [hi])]
    by_cases h8 : i < 8
    · rw [rolling_getD_small 9 listMin _ i (by simp; omega) (by omega),
        rolling_getD_small 9 listMax _ i (by simp [hi]) (by omega),
        rsvStep_undefined,
        List.getElem?_append_left (by simp; omega),
        List.getElem?_append_left (by simp; omega),
        List.getElem?_replicate]
      simp [h8]
    · by_cases h59 : i < 59
      · rw [getD_eq_getElem?_getD, List.getElem?_append_left (by simp; omega),
          List.getElem?_replicate, if_pos h59,
          rolling_getD_full 9 listMin _ i (by simp; omega) (by omega),
          windowEnd_append_left 9 i _ _ (by simp; omega),
          windowEnd_replicate 9 i 59 _ (by omega) h59,
          rolling_replicate_getD 9 60 i listMax 100 (by omega) hi,
          listMin_replicate 8 100, listMax_replicate 8 100,
          rsvStep_zero_range,
          List.getElem?_append_left (by simp; omega),
          List.getElem?_append_right (by simp; omega),
          List.getElem?_replicate]
        simp
        omega
      · have h59' : i = 59 := by omega
        subst h59'
        have hclose : (List.replicate 59 (100:ℚ) ++ [90]).getD 59 0 = 90 := by
          rw [getD_eq_getElem?_getD, List.getElem?_append_right (by simp)]
          simp
        have hwin : windowEnd 9 59 (List.replicate 59 (100:ℚ) ++ [90]) =
            List.replicate 8 (100:ℚ) ++ [90] := by
          rw [windowEnd, List.take_of_length_le (by simp),
            List.drop_append_of_le_length (by simp), List.drop_replicate]
        have hlow : (rolling 9 listMin (List.replicate 59 (100:ℚ) ++ [90])).getD 59 none =
            some 90 := by
          rw [rolling_getD_full 9 listMin _ 59 (by simp) (by omega), hwin,
            listMin_flat_then_drop]
        have hhigh : (rolling 9 listMax (List.replicate 60 (100:ℚ))).getD 59 none =
            some 100 := by
          rw [rolling_replicate_getD 9 60 59 listMax 100 (by omega) (by omega),
            listMax_replicate 8 100]
        have hr : ((List.replicate 8 (none (α := ℚ)) ++ List.replicate 51 (some 50)) ++
            [some 0])[59]? = some (some 0) := by
          rw [List.getElem?_append_right (by simp)]
          simp
        rw [hclose, hlow, hhigh, hr, rsvStep_defined _ _ _ (by norm_num)]
        norm_num
  · rw [List.getElem?_eq_none (by simp [dropSeries]; omega),
      List.getElem?_eq_none (by simp; omega)]

theorem kCol_dropSeries :
    kCol dropSeries =
      (List.replicate 8 none ++ List.replicate 51 (some 50)) ++ [some (100/3)] := by
  have hstep : smaStep 3 1 (some 50) (some 0) = some (100/3) := by
    simp only [smaStep, Option.map_some']
    norm_num
  rw [kCol, rsv_dropSeries, sma_snoc _ _ _ _ (by simp), sma_flatlike,
    getLastD_append _ _ _ (by simp), getLastD_replicate _ _ _ (by omega), hstep]

theorem dCol_dropSeries :
    dCol dropSeries =
      (List.replicate 8 none ++ List.replicate 51 (some 50)) ++ [some (400/9)] := by
  have hstep : smaStep 3 1 (some 50) (some (100/3)) = some (400/9) := by
    simp only [smaStep, Option.map_some']
    norm_num
  rw [dCol, kCol_dropSeries, sma_snoc _ _ _ _ (by simp), sma_flatlike,
    getLastD_append _ _ _ (by simp), getLastD_replicate _ _ _ (by omega), hstep]

theorem kCol_dropSeries_last : (kCol dropSeries).getLastD none = some (100/3) := by
  rw [kCol_dropSeries, getLastD_append _ _ _ (by simp)]
  rfl

theorem dCol_dropSeries_last : (dCol dropSeries).getLastD none = some (400/9) := by
  rw [dCol_dropSeries, getLastD_append _ _ _ (by simp)]
  rfl

theorem jCol_dropSeries_last : (jCol dropSeries).getLastD none = some (100/9) := by
  rw [jCol_getLastD _ dropSeries_ne_nil, kCol_dropSeries_last, dCol_dropSeries_last]
  simp only [oSMul, Option.map_some', o2]
  norm_num

theorem j_ok_dropSeries_last : (j_ok dropSeries).getLastD false = true := by
  rw [j_ok_getLastD _ dropSeries_ne_nil, jCol_dropSeries_last]
  simp only [oLe, oCmp, decide_eq_true_eq]
  norm_num

theorem volSurge_dropSeries :
    List.zipWith (fun v pv => oGt (some v) (oSMul (9/5) pv))
      (List.replicate 60 (1000:ℚ)) (shift1 (List.replicate 60 (1000:ℚ))) =
      List.replicate 60 false := by
  have hstep1 : oGt (some (1000:ℚ)) (oSMul (9/5) (some 1000)) = false := by
    simp only [oGt, oLt, oCmp, oSMul, Option.map_some', decide_eq_false_iff_not]
    norm_num
  have h60 : (60:ℕ) = 59 + 1 := rfl
  rw [h60, shift1_replicate, List.replicate_succ (1000:ℚ), List.zipWith_cons_cons,
    List.zipWith_replicate, min_self]
  simp only [hstep1]
  rw [List.replicate_succ]
  rfl

theorem plry_dropSeries : plry dropSeries = List.replicate 60 false := by
  rw [plry, vols_dropSeries, volSurge_dropSeries, zipWith_false_left]
  have hl2 : (List.zipWith (fun c o => decide (c > o)) (closes dropSeries)
      (opns dropSeries)).length = 60 := by
    simp [dropSeries]
  rw [hl2, min_self, zipWith_false_left]
  have hl3 : (List.zipWith (fun v a => oGt (some v) a) (List.replicate 60 (1000:ℚ))
      (avg40 dropSeries)).length = 60 := by
    simp [avg40, dropSeries]
  rw [hl3, min_self]

theorem plry_cnt_dropSeries_last : (plry_cnt dropSeries).getLastD false = false := by
  rw [plry_cnt, plry_dropSeries]
  have hmap : (List.replicate 60 false).map boolToQ = List.replicate 60 (0:ℚ) := by
    rw [List.map_replicate]
    rfl
  rw [hmap]
  have hroll : (rolling 28 listSum (List.replicate 60 (0:ℚ))) ≠ [] := by
    rw [← List.length_pos]
    simp
  rw [getLastD_map _ none _ _ hroll]
  have hval : (rolling 28 listSum (List.replicate 60 (0:ℚ))).getLastD none = some 0 := by
    rw [getLastD_eq_getD]
    simp only [length_rolling, List.length_replicate]
    rw [show (60:ℕ) - 1 = 59 from rfl,
      rolling_replicate_getD 28 60 59 listSum 0 (by omega) (by omega),
      listSum_replicate_zero]
  rw [hval]
  simp only [oGe, oLe, oCmp, decide_eq_false_iff_not]
  norm_num

theorem closes_dropSeries_last : (closes dropSeries).getLastD 0 = 90 := by
  rw [closes_dropSeries, getLastD_append _ _ _ (by simp)]
  rfl

theorem ref_c_1_dropSeries_last : (ref_c_1 dropSeries).getLastD none = some (100:ℚ) := by
  have hlen : (ref_c_1 dropSeries).length = 60 := by
    simp [dropSeries]
  rw [getLastD_eq_getD, hlen, show (60:ℕ) - 1 = 58 + 1 from rfl, ref_c_1,
    getD_eq_getElem?_getD, shift1_getElem?_succ _ _ 0 (by simp [dropSeries])]
  have hc : (closes dropSeries).getD 58 0 = 100 := by
    rw [closes_dropSeries, getD_eq_getElem?_getD, List.getElem?_append_left (by simp),
      List.getElem?_replicate]
    simp
  rw [hc]
  rfl

theorem bd_dropSeries_last : (bd dropSeries).getLastD false = false := by
  have hne1 : List.zipWith (fun c p => oGt (some c) p) (closes dropSeries)
      (ref_c_1 dropSeries) ≠ [] := by
    rw [← List.length_pos]
    simp [dropSeries]
  rw [bd, getLastD_zipWith (· && ·) false false false _ _ (by simp) hne1,
    getLastD_zipWith _ 0 none false _ _ (by simp) (by
      rw [← List.length_pos]
      simp [dropSeries]),
    closes_dropSeries_last, ref_c_1_dropSeries_last]
  have hgt : oGt (some (90:ℚ)) (some 100) = false := by
    simp only [oGt, oLt, oCmp, decide_eq_false_iff_not]
    norm_num
  rw [hgt]
  simp

theorem trigger_dropSeries_last : (trigger dropSeries).getLastD false = false := by
  rw [trigger_getLastD _ dropSeries_ne_nil, plry_cnt_dropSeries_last,
    bd_dropSeries_last]
  simp

theorem xg_dropSeries_last : (xg dropSeries).getLastD false = false := by
  rw [xg_getLastD _ dropSeries_ne_nil, trigger_dropSeries_last]
  simp

end DropSeriesLemmas

section MoreHelpers

theorem ewm_getD_zero (span : ℚ) (xs : List ℚ) :
    (ewm span xs).getD 0 0 = xs.getD 0 0 := by
  cases xs with
  | nil => rfl
  | cons x t => rfl

theorem closes_ne_nil (bars : List Bar) (h : bars ≠ []) : closes bars ≠ [] := by
  rw [← List.length_pos, length_closes]
  exact List.length_pos.mpr h

theorem ref_c_1_getD_zero (bars : List Bar) (h : bars ≠ []) :
    (ref_c_1 bars).getD 0 none = none := by
  rw [ref_c_1, getD_eq_getElem?_getD, shift1_getElem?_zero _ (closes_ne_nil bars h)]
  rfl

theorem ref_c_1_getD_succ (bars : List Bar) (j : ℕ) (h : j + 1 < bars.length) :
    (ref_c_1 bars).getD (j + 1) none = some ((closes bars).getD j 0) := by
  rw [ref_c_1, getD_eq_getElem?_getD, shift1_getElem?_succ _ _ 0 (by simp [h])]
  rfl

end MoreHelpers

section Claims

/-- C1: for every (possibly partially undefined) input sequence `X` of
length at least 1, integer-valued period `N > 0` and weight `0 < M ≤ N`, the
Smoother `sma` returns a sequence of the same length with `R[0] = X[0]` and,
for `i ≥ 1`, `R[i] = X[i]` when `R[i-1]` is undefined, otherwise
`R[i] = (M*X[i] + (N-M)*R[i-1]) / N` in undefinedness-propagating
arithmetic. -/
theorem sma_spec (X : List (Option ℚ)) (N M : ℚ) (hM : 0 < M) (hMN : M ≤ N)
    (hL : 1 ≤ X.length) :
    (sma X N M).length = X.length ∧
    (sma X N M).getD 0 none = X.getD 0 none ∧
    ∀ i, 1 ≤ i → i < X.length →
      (sma X N M).getD i none =
        (match (sma X N M).getD (i - 1) none with
         | none => X.getD i none
         | some p => (X.getD i none).map fun xv => (M * xv + (N - M) * p) / N) := by
  refine ⟨length_sma X N M, ?_, ?_⟩
  · cases X with
    | nil => simp at hL
    | cons x xs => rfl
  · intro i h1 h2
    rw [sma_getD_step X N M i h1 h2]
    rfl

/-- Witness for C1 at the spec's 2-row synthetic series
(`X = [10, 10.5]`, `N = 3`, `M = 1`): `R[0] = 10`, `R[1] = 61/6`. -/
theorem sma_spec_witness :
    (sma [some 10, some (21/2)] 3 1).getD 0 none = some 10 ∧
    (sma [some 10, some (21/2)] 3 1).getD 1 none = some (61/6) := by
  have h := sma_spec [some 10, some (21/2)] 3 1 (by norm_num) (by norm_num) (by simp)
  have h0 : (sma [some 10, some (21/2)] 3 1).getD 0 none = some 10 := by
    rw [h.2.1]
    rfl
  refine ⟨h0, ?_⟩
  rw [h.2.2 1 (by norm_num) (by norm_num), h0]
  show some ((1 * (21/2 : ℚ) + (3 - 1) * 10) / 3) = some (61/6)
  norm_num

/-- C9: the Smoother has no lookahead — truncating the tail of the input
never changes the output at any earlier index. -/
theorem sma_no_lookahead (X : List (Option ℚ)) (N M : ℚ) (L' : ℕ)
    (hL : L' ≤ X.length) (i : ℕ) (hi : i < L') :
    (sma (X.take L') N M).getD i none = (sma X N M).getD i none := by
  rw [← sma_take, getD_eq_getElem?_getD, getD_eq_getElem?_getD,
    List.getElem?_take, if_pos hi]

/-- Witness for C9: truncating the 2-row synthetic series to its first row
leaves the Smoother's first output unchanged. -/
theorem sma_no_lookahead_witness :
    (sma (([some (10:ℚ), some (21/2)]).take 1) 3 1).getD 0 none =
      (sma [some (10:ℚ), some (21/2)] 3 1).getD 0 none :=
  sma_no_lookahead [some 10, some (21/2)] 3 1 1 (by simp) 0 (by norm_num)

/-- C4: a series with exactly 59 bars yields no AnalysisResult, and the same
series extended by any one further bar (60 total) yields exactly one. -/
theorem insufficient_history_boundary (bars : List Bar) (h : bars.length = 59) :
    analyze_stock bars = none ∧
    ∀ b : Bar, (analyze_stock (bars ++ [b])).isSome = true := by
  constructor
  · rw [analyze_stock, if_pos (by omega)]
  · intro b
    rw [analyze_stock, if_neg (by simp [h])]
    rfl

/-- Witness for C4 at the 59-bar flat series. -/
theorem insufficient_history_boundary_witness :
    analyze_stock flat59 = none ∧
    (analyze_stock (flat59 ++ [flatBar])).isSome = true := by
  have h := insufficient_history_boundary flat59 (by simp [flat59])
  exact ⟨h.1, h.2 flatBar⟩

/-- C8: a missing market-cap snapshot degrades to a default pass of the
MarketCapFloor predicate only: the reported flag equals the analysis flag
unchanged, the recorded MVOK entry is true, and no failure is introduced. -/
theorem marketcap_default_pass (bars : List Bar) :
    run_selected bars none = (analyze_stock bars).map AnalysisResult.selected ∧
    mvokOf none = true ∧
    (∀ r : AnalysisResult, selectedAfterSpot none r.selected = r.selected) := by
  refine ⟨?_, rfl, fun r => rfl⟩
  rw [run_selected]
  cases analyze_stock bars <;> rfl

/-- C3: the Oscillator's RawValue is undefined (not 50) while fewer than 9
bars of history are available; with a full window it is 50 exactly when the
9-bar high/low range is zero, and otherwise the normalised position of the
close in that range times 100. -/
theorem rsv_cases (hs ls cs : List ℚ) (hh : hs.length = cs.length)
    (hl : ls.length = cs.length) (i : ℕ) (hi : i < cs.length) :
    (i + 1 < 9 → (rsvOf hs ls cs).getD i none = none) ∧
    (9 ≤ i + 1 →
      ((listMax (windowEnd 9 i hs) - listMin (windowEnd 9 i ls) = 0 →
          (rsvOf hs ls cs).getD i none = some 50) ∧
        (listMax (windowEnd 9 i hs) - listMin (windowEnd 9 i ls) ≠ 0 →
          (rsvOf hs ls cs).getD i none =
            some ((cs.getD i 0 - listMin (windowEnd 9 i ls)) /
              (listMax (windowEnd 9 i hs) - listMin (windowEnd 9 i ls)) * 100)))) := by
  have hbase : (rsvOf hs ls cs).getD i none =
      rsvStep (cs.getD i 0) ((rolling 9 listMin ls).getD i none)
        ((rolling 9 listMax hs).getD i none) := by
    rw [rsvOf, getD_eq_getElem?_getD,
      zipWith3_getElem?_eq rsvStep 0 none none _ _ _ i hi
        (by rw [length_rolling, hl]; exact hi) (by rw [length_rolling, hh]; exact hi)]
    rfl
  constructor
  · intro h9
    rw [hbase, rolling_getD_small 9 listMin ls i (by rw [hl]; exact hi) h9,
      rolling_getD_small 9 listMax hs i (by rw [hh]; exact hi) h9, rsvStep_undefined]
  · intro h9
    rw [hbase, rolling_getD_full 9 listMin ls i (by rw [hl]; exact hi) h9,
      rolling_getD_full 9 listMax hs i (by rw [hh]; exact hi) h9]
    constructor
    · intro hden
      simp [rsvStep, o2, oNe, hden]
    · intro hden
      rw [rsvStep_defined _ _ _ hden]

/-- Witness for C3 at nine flat bars: RawValue is undefined at index 0 and
is 50 at index 8 (full window, zero range). -/
theorem rsv_cases_witness :
    (rsvOf (List.replicate 9 (100:ℚ)) (List.replicate 9 (100:ℚ))
      (List.replicate 9 (100:ℚ))).getD 0 none = none ∧
    (rsvOf (List.replicate 9 (100:ℚ)) (List.replicate 9 (100:ℚ))
      (List.replicate 9 (100:ℚ))).getD 8 none = some 50 := by
  constructor
  · exact (rsv_cases _ _ _ (by simp) (by simp) 0 (by simp)).1 (by norm_num)
  · have hzero : listMax (windowEnd 9 8 (List.replicate 9 (100:ℚ))) -
        listMin (windowEnd 9 8 (List.replicate 9 (100:ℚ))) = 0 := by
      rw [windowEnd_replicate 9 8 9 (100:ℚ) (by omega) (by omega),
        show (9:ℕ) = 8 + 1 from rfl, listMax_replicate 8 100, listMin_replicate 8 100]
      norm_num
    exact ((rsv_cases _ _ _ (by simp) (by simp) 8 (by simp)).2 (by norm_num)).1 hzero

/-- C10: for every non-empty series the MACD columns DIF and DEA are defined
at every bar index (the exponential averages are seeded from the first
value, so no leading undefined region exists), and `macd_ok` is a total
boolean column of the same length. -/
theorem macd_always_defined (bars : List Bar) (h : bars ≠ []) :
    (difOf (closes bars)).length = bars.length ∧
    (deaOf (closes bars)).length = bars.length ∧
    (∀ i, i < bars.length →
      ((difOf (closes bars))[i]?).isSome = true ∧
      ((deaOf (closes bars))[i]?).isSome = true) ∧
    (ewm 12 (closes bars)).getD 0 0 = (closes bars).getD 0 0 ∧
    (ewm 26 (closes bars)).getD 0 0 = (closes bars).getD 0 0 ∧
    (ewm 9 (difOf (closes bars))).getD 0 0 = (difOf (closes bars)).getD 0 0 ∧
    (macd_ok bars).length = bars.length := by
  refine ⟨by simp, by simp [deaOf], ?_, ewm_getD_zero 12 _, ewm_getD_zero 26 _,
    ewm_getD_zero 9 _, by simp⟩
  intro i hi
  constructor
  · rw [List.getElem?_eq_getElem (show i < (difOf (closes bars)).length by simp [hi])]
    rfl
  · rw [List.getElem?_eq_getElem
      (show i < (deaOf (closes bars)).length by simp [deaOf, hi])]
    rfl

/-- Witness for C10 at a one-bar series. -/
theorem macd_always_defined_witness :
    (difOf (closes [flatBar])).length = 1 ∧
    ((difOf (closes [flatBar]))[0]?).isSome = true := by
  have h := macd_always_defined [flatBar] (by simp)
  exact ⟨by simpa using h.1, (h.2.2.1 0 (by norm_num)).1⟩

/-- C2: for every series of at least 60 bars and any market-cap lookup
outcome, the reported selection flag is exactly the conjunction of the seven
predicates — J_OK, Trigger, Liquidity, MarketCapFloor, PeakVolume_OK,
VolumeBalance_OK and MACD_OK — evaluated at the final bar, each predicate
column having already resolved undefined operands to false. -/
theorem selection_flag_conjunction (bars : List Bar) (cap : Option ℚ)
    (h : 60 ≤ bars.length) :
    run_selected bars cap =
      some (((((((j_ok bars).getLastD false && (trigger bars).getLastD false) &&
        (lq bars).getLastD false) && mvokOf cap) && (max28_ok bars).getLastD false) &&
        (yangyin_ok bars).getLastD false) && (macd_ok bars).getLastD false) := by
  have hne : bars ≠ [] := by
    rw [← List.length_pos]
    omega
  rw [run_selected, analyze_stock, if_neg (by omega)]
  simp only [Option.map_some']
  congr 1
  rw [xg_getLastD bars hne, mvok_getLastD bars hne]
  cases cap with
  | none => rfl
  | some mv =>
      simp only [selectedAfterSpot, mvokOf, ge_iff_le]
      by_cases hmv : mv < 30
      · rw [if_pos hmv]
        have hdec : decide (30 ≤ mv) = false := by
          simp [not_le.mpr hmv]
        rw [hdec]
        simp
      · rw [if_neg hmv]
        have hdec : decide (30 ≤ mv) = true := by
          simp [not_lt.mp hmv]
        rw [hdec]

/-- Witness for C2 at the 70-bar flat series with no market-cap entry. -/
theorem selection_flag_conjunction_witness :
    run_selected flat70 none =
      some (((((((j_ok flat70).getLastD false && (trigger flat70).getLastD false) &&
        (lq flat70).getLastD false) && mvokOf none) && (max28_ok flat70).getLastD false) &&
        (yangyin_ok flat70).getLastD false) && (macd_ok flat70).getLastD false) :=
  selection_flag_conjunction flat70 none (by simp [flat70])

/-- C5: the 70-bar flat series (all prices 100, volume 1000) yields
RawValue 50 exactly on the full-window positions (undefined before),
K = D = 50 on the defined region, J = 50 at the final bar, J_OK false there
(50 > 13), and a reported selection flag of false for every market-cap
outcome. -/
theorem flat_series_scenario :
    rsv flat70 = List.replicate 8 none ++ List.replicate 62 (some 50) ∧
    kCol flat70 = List.replicate 8 none ++ List.replicate 62 (some 50) ∧
    dCol flat70 = List.replicate 8 none ++ List.replicate 62 (some 50) ∧
    (jCol flat70).getLastD none = some 50 ∧
    (j_ok flat70).getLastD false = false ∧
    ∀ cap : Option ℚ, run_selected flat70 cap = some false := by
  refine ⟨rsv_flat70, kCol_flat70, dCol_flat70, jCol_flat70_last, j_ok_flat70_last, ?_⟩
  intro cap
  rw [run_selected, analyze_stock, if_neg (by simp [flat70])]
  simp only [Option.map_some']
  rw [xg_flat70_last]
  cases cap with
  | none => rfl
  | some mv => simp [selectedAfterSpot]

/-- C6 (code bug): on `dropSeries` the final `J` is `100/9`, so the
individual predicate `J ≤ 13` is true at the final bar, yet the diagnostics
map reports `J_OK = false`, because the source stores the overall `XG` flag
(false here — no trigger fires) under the key `'J_OK'` instead of the `j_ok`
predicate value. -/
theorem jok_entry_bug :
    (analyze_stock dropSeries).map (fun r => r.indicators.J_OK) = some false ∧
    (j_ok dropSeries).getLastD false = true ∧
    (analyze_stock dropSeries).map (fun r => r.indicators.J) = some (some (100/9)) := by
  have hif : ¬ (dropSeries.length < 60) := by
    rw [dropSeries_length]
    omega
  refine ⟨?_, j_ok_dropSeries_last, ?_⟩
  · rw [analyze_stock, if_neg hif]
    simp only [Option.map_some']
    congr 1
    rw [jCol_dropSeries_last]
    simp only [Option.isSome_some, if_true]
    exact xg_dropSeries_last
  · rw [analyze_stock, if_neg hif]
    simp only [Option.map_some']
    rw [jCol_dropSeries_last]

/-- C7 counterexample: the claim says all four candle labels are undefined
at bar 0; but on a one-bar series the source's `fake_yang` (LooseBullish) is
the defined boolean `true` at index 0 — the pandas comparison against the
missing previous close is false, not undefined — so the code differs from
the claim's reading (modelled by `looseBullishClaimed`). -/
theorem candle_labels_bar0_cex :
    (fake_yang [synthBar0]).map some ≠ looseBullishClaimed (closes [synthBar0]) ∧
    fake_yang [synthBar0] = [true] ∧
    looseBullishClaimed (closes [synthBar0]) = [none] := by
  refine ⟨?_, ?_, ?_⟩
  · decide
  · decide
  · decide

/-- C7 (amended): the candle labels are defined at bar 0 — comparisons with
the missing previous close resolve to false — giving
`RealBullish[0] = (close[0] > open[0])`, `RealBearish[0] = (close[0] < open[0])`,
`LooseBullish[0] = LooseBearish[0] = true`; for `i ≥ 1` all four labels equal
the stated comparisons against open and previous close. -/
theorem candle_labels_amended (bars : List Bar) (h : bars ≠ []) :
    (real_yang bars).getD 0 false =
      decide ((closes bars).getD 0 0 > (opns bars).getD 0 0) ∧
    (real_yin bars).getD 0 false =
      decide ((closes bars).getD 0 0 < (opns bars).getD 0 0) ∧
    (fake_yang bars).getD 0 false = true ∧
    (fake_yin bars).getD 0 false = true ∧
    ∀ i, 1 ≤ i → i < bars.length →
      ((real_yang bars).getD i false =
        (decide ((closes bars).getD i 0 > (opns bars).getD i 0) &&
          !decide ((closes bars).getD i 0 < (closes bars).getD (i - 1) 0)) ∧
       (real_yin bars).getD i false =
        (decide ((closes bars).getD i 0 < (opns bars).getD i 0) &&
          !decide ((closes bars).getD i 0 > (closes bars).getD (i - 1) 0)) ∧
       (fake_yang bars).getD i false =
        !decide ((closes bars).getD i 0 < (closes bars).getD (i - 1) 0) ∧
       (fake_yin bars).getD i false =
        !decide ((closes bars).getD i 0 > (closes bars).getD (i - 1) 0)) := by
  have hpos : 0 < bars.length := List.length_pos.mpr h
  have hry0 : (real_yang bars).getD 0 false =
      decide ((closes bars).getD 0 0 > (opns bars).getD 0 0) := by
    rw [real_yang, getD_eq_getElem?_getD,
      zipWith3_getElem?_eq _ 0 0 none _ _ _ 0 (by simp [hpos]) (by simp [hpos])
        (by simp [hpos]),
      ref_c_1_getD_zero bars h]
    simp [oLt, oCmp]
  have hriy0 : (real_yin bars).getD 0 false =
      decide ((closes bars).getD 0 0 < (opns bars).getD 0 0) := by
    rw [real_yin, getD_eq_getElem?_getD,
      zipWith3_getElem?_eq _ 0 0 none _ _ _ 0 (by simp [hpos]) (by simp [hpos])
        (by simp [hpos]),
      ref_c_1_getD_zero bars h]
    simp [oGt, oLt, oCmp]
  have hfy0 : (fake_yang bars).getD 0 false = true := by
    rw [fake_yang, getD_eq_getElem?_getD,
      zipWith_getElem?_eq _ 0 none _ _ 0 (by simp [hpos]) (by simp [hpos]),
      ref_c_1_getD_zero bars h]
    simp [oLt, oCmp]
  have hfiy0 : (fake_yin bars).getD 0 false = true := by
    rw [fake_yin, getD_eq_getElem?_getD,
      zipWith_getElem?_eq _ 0 none _ _ 0 (by simp [hpos]) (by simp [hpos]),
      ref_c_1_getD_zero bars h]
    simp [oGt, oLt, oCmp]
  refine ⟨hry0, hriy0, hfy0, hfiy0, ?_⟩
  intro i h1 h2
  obtain ⟨j, rfl⟩ : ∃ j, i = j + 1 := ⟨i - 1, by omega⟩
  have hrc : (ref_c_1 bars).getD (j + 1) none = some ((closes bars).getD j 0) :=
    ref_c_1_getD_succ bars j h2
  refine ⟨?_, ?_, ?_, ?_⟩
  · rw [real_yang, getD_eq_getElem?_getD,
      zipWith3_getElem?_eq _ 0 0 none _ _ _ (j + 1) (by simp [h2]) (by simp [h2])
        (by simp [h2]),
      hrc]
    simp [oLt, oCmp]
  · rw [real_yin, getD_eq_getElem?_getD,
      zipWith3_getElem?_eq _ 0 0 none _ _ _ (j + 1) (by simp [h2]) (by simp [h2])
        (by simp [h2]),
      hrc]
    simp [oGt, oLt, oCmp]
  · rw [fake_yang, getD_eq_getElem?_getD,
      zipWith_getElem?_eq _ 0 none _ _ (j + 1) (by simp [h2]) (by simp [h2]),
      hrc]
    simp [oLt, oCmp]
  · rw [fake_yin, getD_eq_getElem?_getD,
      zipWith_getElem?_eq _ 0 none _ _ (j + 1) (by simp [h2]) (by simp [h2]),
      hrc]
    simp [oGt, oLt, oCmp]

/-- Witness for C7 (amended) at the spec's 2-row synthetic series. -/
theorem candle_labels_amended_witness :
    (fake_yang [synthBar0, synthBar1]).getD 0 false = true ∧
    (fake_yang [synthBar0, synthBar1]).getD 1 false =
      !decide ((closes [synthBar0, synthBar1]).getD 1 0 <
        (closes [synthBar0, synthBar1]).getD 0 0) := by
  have h := candle_labels_amended [synthBar0, synthBar1] (by simp)
  exact ⟨h.2.2.1, (h.2.2.2.2 1 (by norm_num) (by simp)).2.2.1⟩

end Claims

end StockSel
